import Mathlib

/-!
Shallow embedding of `core/src/apps/wallet/sign_tx/zcash.py`: the
Overwintered/Sapling sighash engine (ZIP-0143 / ZIP-0243 preimage
construction, script-code resolution, and the Overwintered transaction
adapter).  Bytes are modelled as `List Nat` with each element `< 256`
where it matters; machine integers are `Nat` with explicit `% 2 ^ w`
reductions inside the little-endian encoders.  Fallible Python code
(`ensure` assertions and `SigningError`) is modelled with `Except`.
-/

namespace Zcash

/-! ## Errors

`ensure` failures are fatal assertions (`AssertionError`); `SigningError`
carries a `FailureType` and a message, mirroring
`raise SigningError(FailureType.DataError, msg)`. -/

inductive FailureType where
  | DataError
deriving DecidableEq, Repr

inductive SignErr where
  | ensureFailed
  | signingError (t : FailureType) (msg : String)
deriving DecidableEq, Repr

/-- `trezor.utils.ensure`: raises a fatal assertion when the condition is
false.  Modelled from the spec: fatal protocol violations abort the signing
operation immediately (spec §7). -/
def ensure (b : Bool) : Except SignErr Unit :=
  if b then Except.ok () else Except.error SignErr.ensureFailed

/-! ## Byte writers

Modelled from the spec: the `apps.wallet.sign_tx.writers` module is an
out-of-scope collaborator of this core; the spec fixes its contracts —
`write_uint32` is 4-byte little-endian, `write_uint64` is 8-byte
little-endian, `write_bytes_reversed` writes the bytes in reversed order,
`write_bytes_prefixed` writes a Bitcoin-style varint length prefix
followed by the bytes, `write_varint` is the Bitcoin variable-length
integer encoding, and `write_bytes_fixed` writes exactly the given bytes
(the caller guarantees the length equals the declared size). -/

def uintLE (width n : Nat) : List Nat :=
  (List.range width).map (fun i => n / 256 ^ i % 256)

def uint32LE (n : Nat) : List Nat := uintLE 4 n

def uint64LE (n : Nat) : List Nat := uintLE 8 n

def TX_HASH_SIZE : Nat := 32

def write_uint32 (w : List Nat) (n : Nat) : List Nat := w ++ uint32LE n

def write_uint64 (w : List Nat) (n : Nat) : List Nat := w ++ uint64LE n

def write_bytes_fixed (w b : List Nat) (_size : Nat) : List Nat := w ++ b

def write_bytes_reversed (w b : List Nat) (_size : Nat) : List Nat :=
  w ++ b.reverse

def varint (n : Nat) : List Nat :=
  if n < 253 then [n]
  else if n < 65536 then 253 :: uintLE 2 n
  else if n < 4294967296 then 254 :: uintLE 4 n
  else 255 :: uintLE 8 n

def write_varint (w : List Nat) (n : Nat) : List Nat := w ++ varint n

def write_bytes_prefixed (w b : List Nat) : List Nat :=
  w ++ varint b.length ++ b

/-! ## The hash primitive

Modelled from the spec: the hash primitive (`blake2b` from
`trezor.crypto.hashlib`) is an out-of-scope collaborator — a
"keyed/personalized cryptographic hash function producing a 32-byte digest
from an arbitrary-length, order-sensitive byte stream and a short ASCII
label" (spec §6).  We model it as a deterministic function of the
personalization label and the accumulated byte stream that always produces
a 32-byte digest; the internal compression is irrelevant to every claim,
which only constrain the label, the byte stream fed in, and the output
width. -/

def blake2b_finalize (personal data : List Nat) : List Nat :=
  let seed := (personal ++ 255 :: data).foldl
    (fun a b => (a * 131 + b % 256 + 17) % 1000000007) 7
  (List.range 32).map (fun i => (seed * (i + 1) + i) % 256)

/-- A `HashWriter` wrapping a personalized `blake2b` accumulator: the
personalization label fixed at construction and the byte stream accumulated
so far. -/
structure HashWriter where
  personal : List Nat
  data : List Nat
deriving DecidableEq, Repr

/-- `writers.get_tx_hash`: finalizes the accumulator to its 32-byte digest.
Modelled from the spec: finalization of the digest accumulator (spec §4.1). -/
def get_tx_hash (w : HashWriter) : List Nat :=
  blake2b_finalize w.personal w.data

/-- ASCII bytes of a personalization string. -/
def asciiBytes (s : String) : List Nat := s.toList.map Char.toNat

/-! ## Data model -/

/-- `apps.common.coininfo.CoinInfo`, restricted to the field this core
reads. -/
structure CoinInfo where
  overwintered : Bool
deriving DecidableEq, Repr

/-- `trezor.messages.SignTx`, restricted to the fields this core reads.
A `branch_id` of `0` models the Python falsy value (`0`/`None`), meaning
"use the protocol default for this version". -/
structure SignTx where
  version : Nat
  version_group_id : Nat
  branch_id : Nat
  lock_time : Nat
  expiry : Nat
deriving DecidableEq, Repr

inductive InputScriptType where
  | SPENDADDRESS
  | SPENDMULTISIG
  | SPENDWITNESS
  | SPENDP2SHWITNESS
deriving DecidableEq, Repr

/-- `trezor.messages.MultisigRedeemScriptType`: ordered public keys and the
signature threshold `m`. -/
structure MultisigRedeemScriptType where
  pubkeys : List (List Nat)
  m : Nat
deriving DecidableEq, Repr

/-- `trezor.messages.TxInputType`, restricted to the fields this core
reads. -/
structure TxInputType where
  prev_hash : List Nat
  prev_index : Nat
  script_type : InputScriptType
  multisig : Option MultisigRedeemScriptType
  amount : Nat
  sequence : Nat
deriving DecidableEq, Repr

/-! ## External script builders

Modelled from the spec: `multisig_get_pubkeys` returns the descriptor's
ordered public keys; `output_script_multisig` builds the canonical
multisignature redeem script from the ordered public keys and threshold;
`output_script_p2pkh` builds the canonical pay-to-public-key-hash script
(spec §4.2, §6). -/

def multisig_get_pubkeys (ms : MultisigRedeemScriptType) : List (List Nat) :=
  ms.pubkeys

def output_script_p2pkh (pubkeyhash : List Nat) : List Nat :=
  [118, 169, 20] ++ pubkeyhash ++ [136, 172]

def output_script_multisig (pubkeys : List (List Nat)) (m : Nat) : List Nat :=
  [80 + m] ++ (pubkeys.map (fun pk => varint pk.length ++ pk)).flatten
    ++ [80 + pubkeys.length, 174]

/-! ## The sighash engine (`zcash.py`) -/

def OVERWINTERED : Nat := 0x80000000

/-- `zcash.derive_script_code`: the script-code resolver. -/
def derive_script_code (txi : TxInputType) (pubkeyhash : List Nat) :
    Except SignErr (List Nat) :=
  match txi.multisig with
  | some ms =>
      Except.ok (output_script_multisig (multisig_get_pubkeys ms) ms.m)
  | none =>
      if txi.script_type = InputScriptType.SPENDADDRESS then
        Except.ok (output_script_p2pkh pubkeyhash)
      else
        Except.error (SignErr.signingError FailureType.DataError
          "Unknown input script type for zip143 script code")

/-- The state of a `Zip143` strategy object: the resolved consensus branch
id and the three live commitment accumulators created in `Zip143.__init__`. -/
structure Zip143 where
  branch_id : Nat
  h_prevouts : HashWriter
  h_sequence : HashWriter
  h_outputs : HashWriter
deriving DecidableEq, Repr

/-- `Zip143.__init__`: stores the branch id and creates the three
personalized commitment accumulators. -/
def Zip143.init (branch_id : Nat) : Zip143 :=
  ⟨branch_id,
   ⟨asciiBytes "ZcashPrevoutHash", []⟩,
   ⟨asciiBytes "ZcashSequencHash", []⟩,
   ⟨asciiBytes "ZcashOutputsHash", []⟩⟩

def Zip143.get_prevouts_hash (self : Zip143) (_coin : CoinInfo) : List Nat :=
  get_tx_hash self.h_prevouts

def Zip143.get_sequence_hash (self : Zip143) (_coin : CoinInfo) : List Nat :=
  get_tx_hash self.h_sequence

def Zip143.get_outputs_hash (self : Zip143) (_coin : CoinInfo) : List Nat :=
  get_tx_hash self.h_outputs

/-- The personalization label of the preimage accumulator:
`b"ZcashSigHash" + struct.pack("<I", branch_id)`. -/
def zcashSigHashPersonal (branch_id : Nat) : List Nat :=
  asciiBytes "ZcashSigHash" ++ uint32LE branch_id

/-- `Zip143.preimage_hash`: assembles the ZIP-0143 (v3, Overwinter) sighash
preimage.  A Python method mutating nothing on `self`; modelled as
returning the post-state (always `self`) together with the digest or the
raised error. -/
def Zip143.preimage_hash (self : Zip143) (coin : CoinInfo) (tx : SignTx)
    (txi : TxInputType) (pubkeyhash : List Nat) (sighash : Nat) :
    Zip143 × Except SignErr (List Nat) :=
  (self,
    match ensure coin.overwintered with
    | Except.error e => Except.error e
    | Except.ok _ =>
    match ensure (tx.version == 3) with
    | Except.error e => Except.error e
    | Except.ok _ =>
      let d : List Nat := []
      let d := write_uint32 d (tx.version ||| OVERWINTERED)
      let d := write_uint32 d tx.version_group_id
      let d := write_bytes_fixed d (self.get_prevouts_hash coin) TX_HASH_SIZE
      let d := write_bytes_fixed d (self.get_sequence_hash coin) TX_HASH_SIZE
      let d := write_bytes_fixed d (self.get_outputs_hash coin) TX_HASH_SIZE
      let d := write_bytes_fixed d (List.replicate TX_HASH_SIZE 0) TX_HASH_SIZE
      let d := write_uint32 d tx.lock_time
      let d := write_uint32 d tx.expiry
      let d := write_uint32 d sighash
      let d := write_bytes_reversed d txi.prev_hash TX_HASH_SIZE
      let d := write_uint32 d txi.prev_index
      match derive_script_code txi pubkeyhash with
      | Except.error e => Except.error e
      | Except.ok script_code =>
        let d := write_bytes_prefixed d script_code
        let d := write_uint64 d txi.amount
        let d := write_uint32 d txi.sequence
        Except.ok (get_tx_hash ⟨zcashSigHashPersonal self.branch_id, d⟩))

/-- `Zip243(Zip143)`: the v4 strategy shares the v3 strategy's state (its
`__init__` just calls `super().__init__`). -/
abbrev Zip243 := Zip143

def Zip243.init (branch_id : Nat) : Zip243 := Zip143.init branch_id

/-- `Zip243.preimage_hash`: assembles the ZIP-0243 (v4, Sapling) sighash
preimage.  Modelled like `Zip143.preimage_hash`. -/
def Zip243.preimage_hash (self : Zip243) (coin : CoinInfo) (tx : SignTx)
    (txi : TxInputType) (pubkeyhash : List Nat) (sighash : Nat) :
    Zip243 × Except SignErr (List Nat) :=
  (self,
    match ensure coin.overwintered with
    | Except.error e => Except.error e
    | Except.ok _ =>
    match ensure (tx.version == 4) with
    | Except.error e => Except.error e
    | Except.ok _ =>
      let d : List Nat := []
      let d := write_uint32 d (tx.version ||| OVERWINTERED)
      let d := write_uint32 d tx.version_group_id
      let d := write_bytes_fixed d (Zip143.get_prevouts_hash self coin) TX_HASH_SIZE
      let d := write_bytes_fixed d (Zip143.get_sequence_hash self coin) TX_HASH_SIZE
      let d := write_bytes_fixed d (Zip143.get_outputs_hash self coin) TX_HASH_SIZE
      let zero_hash : List Nat := List.replicate TX_HASH_SIZE 0
      let d := write_bytes_fixed d zero_hash TX_HASH_SIZE
      let d := write_bytes_fixed d zero_hash TX_HASH_SIZE
      let d := write_bytes_fixed d zero_hash TX_HASH_SIZE
      let d := write_uint32 d tx.lock_time
      let d := write_uint32 d tx.expiry
      let d := write_uint64 d 0
      let d := write_uint32 d sighash
      let d := write_bytes_reversed d txi.prev_hash TX_HASH_SIZE
      let d := write_uint32 d txi.prev_index
      match derive_script_code txi pubkeyhash with
      | Except.error e => Except.error e
      | Except.ok script_code =>
        let d := write_bytes_prefixed d script_code
        let d := write_uint64 d txi.amount
        let d := write_uint32 d txi.sequence
        Except.ok (get_tx_hash ⟨zcashSigHashPersonal self.branch_id, d⟩))

/-! ## The Overwintered transaction adapter -/

/-- The strategy object returned by `Overwintered.create_hash143`: either a
`Zip143` or a `Zip243` instance. -/
inductive Hash143 where
  | zip143 (s : Zip143)
  | zip243 (s : Zip243)
deriving DecidableEq, Repr

def Hash143.branch_id : Hash143 → Nat
  | Hash143.zip143 s => s.branch_id
  | Hash143.zip243 s => s.branch_id

/-- Python's `a or b` on integers: `b` when `a` is falsy (`0`), else `a`. -/
def pyOr (a b : Nat) : Nat := if a = 0 then b else a

/-- `Overwintered.create_hash143`: selects the strategy by transaction
version, supplying default consensus branch ids. -/
def Overwintered.create_hash143 (tx : SignTx) : Except SignErr Hash143 :=
  if tx.version = 3 then
    Except.ok (Hash143.zip143 (Zip143.init (pyOr tx.branch_id 0x5BA81B19)))
  else if tx.version = 4 then
    Except.ok (Hash143.zip243 (Zip243.init (pyOr tx.branch_id 0x76B809BB)))
  else
    Except.error (SignErr.signingError FailureType.DataError
      "Unsupported version for overwintered transaction")

/-- `Overwintered.write_tx_header`: emits `version | OVERWINTERED` then
`version_group_id`, both 4-byte little-endian. -/
def Overwintered.write_tx_header (w : List Nat) (tx : SignTx)
    (_has_segwit : Bool) : List Nat :=
  write_uint32 (write_uint32 w (tx.version ||| OVERWINTERED))
    tx.version_group_id

/-- `Overwintered.write_sign_tx_footer`: emits `lock_time`, then the
version-specific expiry/shielded-placeholder fields. -/
def Overwintered.write_sign_tx_footer (tx : SignTx) (w : List Nat) :
    Except SignErr (List Nat) :=
  let w := write_uint32 w tx.lock_time
  if tx.version = 3 then
    Except.ok (write_varint (write_uint32 w tx.expiry) 0)
  else if tx.version = 4 then
    Except.ok
      (write_varint
        (write_varint
          (write_varint (write_uint64 (write_uint32 w tx.expiry) 0) 0) 0) 0)
  else
    Except.error (SignErr.signingError FailureType.DataError
      "Unsupported version for overwintered transaction")

/-! ## Helper lemmas -/

theorem blake2b_finalize_length (personal data : List Nat) :
    (blake2b_finalize personal data).length = 32 := by
  simp [blake2b_finalize]

theorem get_tx_hash_length (w : HashWriter) : (get_tx_hash w).length = 32 := by
  simp [get_tx_hash, blake2b_finalize_length]

/-! ## Concrete example data (used by witness theorems) -/

def coinEx : CoinInfo := ⟨true⟩

def coinBadEx : CoinInfo := ⟨false⟩

def tx3Ex : SignTx := ⟨3, 0x03C48270, 0, 7, 11⟩

def tx4Ex : SignTx := ⟨4, 0x892F2085, 0, 7, 11⟩

def tx5Ex : SignTx := ⟨5, 0x892F2085, 0, 7, 11⟩

def pkhEx : List Nat := List.replicate 20 2

def txiAddrEx : TxInputType :=
  ⟨List.replicate 32 1, 0, InputScriptType.SPENDADDRESS, none, 1000,
   4294967295⟩

def txiBadEx : TxInputType :=
  ⟨List.replicate 32 1, 0, InputScriptType.SPENDWITNESS, none, 1000,
   4294967295⟩

def msEx : MultisigRedeemScriptType := ⟨[[3, 3], [4, 4], [5, 5]], 2⟩

def txiMsEx : TxInputType :=
  ⟨List.replicate 32 1, 0, InputScriptType.SPENDWITNESS, some msEx, 1000,
   4294967295⟩

def sEx : Zip143 := Zip143.init 5

def sEx2 : Zip143 :=
  ⟨5,
   ⟨asciiBytes "ZcashPrevoutHash", []⟩,
   ⟨asciiBytes "ZcashSequencHash", []⟩,
   ⟨asciiBytes "ZcashOutputsHash", []⟩⟩

theorem varint_zero : varint 0 = [0] := by simp [varint]

theorem uint64LE_zero : uint64LE 0 = List.replicate 8 0 := by decide

/-- Case analysis on the script-code resolver: it either succeeds or fails
with exactly the unsupported-script-type data error. -/
theorem derive_script_code_cases (txi : TxInputType) (pubkeyhash : List Nat) :
    (∃ sc, derive_script_code txi pubkeyhash = Except.ok sc) ∨
      derive_script_code txi pubkeyhash =
        Except.error (SignErr.signingError FailureType.DataError
          "Unknown input script type for zip143 script code") := by
  rcases h : txi.multisig with _ | ms
  · by_cases hst : txi.script_type = InputScriptType.SPENDADDRESS
    · exact Or.inl ⟨output_script_p2pkh pubkeyhash,
        by simp [derive_script_code, h, hst]⟩
    · exact Or.inr (by simp [derive_script_code, h, hst])
  · exact Or.inl ⟨output_script_multisig (multisig_get_pubkeys ms) ms.m,
      by simp [derive_script_code, h]⟩

/-! ## Claims -/

/-- Claim C5: `derive_script_code` returns the multisignature redeem script
built from the descriptor's public keys and threshold `m` exactly when the
input's multisig descriptor is present; otherwise returns the canonical
P2PKH script for the supplied public-key hash exactly when `script_type` is
`SPENDADDRESS`; and it raises the unsupported-script-type data error if and
only if the descriptor is absent and the script type is not
pay-to-address. -/
theorem C5_derive_script_code (txi : TxInputType) (pubkeyhash : List Nat) :
    (∀ ms, txi.multisig = some ms →
      derive_script_code txi pubkeyhash =
        Except.ok (output_script_multisig (multisig_get_pubkeys ms) ms.m)) ∧
    (txi.multisig = none → txi.script_type = InputScriptType.SPENDADDRESS →
      derive_script_code txi pubkeyhash =
        Except.ok (output_script_p2pkh pubkeyhash)) ∧
    ((∃ e, derive_script_code txi pubkeyhash = Except.error e) ↔
      txi.multisig = none ∧
        txi.script_type ≠ InputScriptType.SPENDADDRESS) := by
  refine ⟨?_, ?_, ?_⟩
  · intro ms hms
    simp [derive_script_code, hms]
  · intro hn hst
    simp [derive_script_code, hn, hst]
  · constructor
    · rintro ⟨e, he⟩
      rcases h : txi.multisig with _ | ms
      · by_cases hst : txi.script_type = InputScriptType.SPENDADDRESS
        · simp [derive_script_code, h, hst] at he
        · exact ⟨h.symm.trans h, hst⟩
      · simp [derive_script_code, h] at he
    · rintro ⟨hn, hst⟩
      refine ⟨SignErr.signingError FailureType.DataError
        "Unknown input script type for zip143 script code", ?_⟩
      simp [derive_script_code, hn, hst]

/-- Witness for C5 at a concrete pay-to-address input. -/
theorem C5_derive_script_code_witness :
    derive_script_code txiAddrEx pkhEx =
      Except.ok (output_script_p2pkh pkhEx) :=
  (C5_derive_script_code txiAddrEx pkhEx).2.1 rfl rfl

/-- Claim C4: with `branch_id = 0` and `version = 3`,
`Overwintered.create_hash143` yields a v3 strategy with branch id
`0x5BA81B19` (and its preimage accumulator label embeds that value
little-endian); with `version = 4` it yields `0x76B809BB`; a nonzero
`branch_id` is used verbatim in both cases. -/
theorem C4_branch_id_defaulting (tx : SignTx) :
    (∀ b, zcashSigHashPersonal b =
      asciiBytes "ZcashSigHash" ++ uint32LE b) ∧
    (tx.branch_id = 0 → tx.version = 3 →
      Overwintered.create_hash143 tx =
        Except.ok (Hash143.zip143 (Zip143.init 0x5BA81B19)) ∧
        (Zip143.init 0x5BA81B19).branch_id = 0x5BA81B19) ∧
    (tx.branch_id = 0 → tx.version = 4 →
      Overwintered.create_hash143 tx =
        Except.ok (Hash143.zip243 (Zip243.init 0x76B809BB)) ∧
        (Zip243.init 0x76B809BB).branch_id = 0x76B809BB) ∧
    (tx.branch_id ≠ 0 → tx.version = 3 →
      Overwintered.create_hash143 tx =
        Except.ok (Hash143.zip143 (Zip143.init tx.branch_id))) ∧
    (tx.branch_id ≠ 0 → tx.version = 4 →
      Overwintered.create_hash143 tx =
        Except.ok (Hash143.zip243 (Zip243.init tx.branch_id))) := by
  refine ⟨fun b => rfl, ?_, ?_, ?_, ?_⟩
  · intro hb hv
    exact ⟨by simp [Overwintered.create_hash143, pyOr, hb, hv], rfl⟩
  · intro hb hv
    exact ⟨by simp [Overwintered.create_hash143, pyOr, hb, hv], rfl⟩
  · intro hb hv
    simp [Overwintered.create_hash143, pyOr, hb, hv]
  · intro hb hv
    simp [Overwintered.create_hash143, pyOr, hb, hv]

/-- Witness for C4: the example v3 header has `branch_id = 0` and yields
the Overwinter default. -/
theorem C4_branch_id_defaulting_witness :
    Overwintered.create_hash143 tx3Ex =
      Except.ok (Hash143.zip143 (Zip143.init 0x5BA81B19)) ∧
      (Zip143.init 0x5BA81B19).branch_id = 0x5BA81B19 :=
  (C4_branch_id_defaulting tx3Ex).2.1 rfl rfl

/-- Claim C6: for every transaction header whose version is neither 3 nor
4, `Overwintered.create_hash143` raises the recoverable
`UnsupportedVersion` data error, and `Overwintered.write_sign_tx_footer`
raises the same data error. -/
theorem C6_unsupported_version (tx : SignTx) (w : List Nat)
    (h3 : tx.version ≠ 3) (h4 : tx.version ≠ 4) :
    Overwintered.create_hash143 tx =
      Except.error (SignErr.signingError FailureType.DataError
        "Unsupported version for overwintered transaction") ∧
    Overwintered.write_sign_tx_footer tx w =
      Except.error (SignErr.signingError FailureType.DataError
        "Unsupported version for overwintered transaction") := by
  constructor
  · simp [Overwintered.create_hash143, h3, h4]
  · simp [Overwintered.write_sign_tx_footer, h3, h4]

/-- Witness for C6 at a concrete version-5 header. -/
theorem C6_unsupported_version_witness :
    Overwintered.create_hash143 tx5Ex =
      Except.error (SignErr.signingError FailureType.DataError
        "Unsupported version for overwintered transaction") ∧
    Overwintered.write_sign_tx_footer tx5Ex [] =
      Except.error (SignErr.signingError FailureType.DataError
        "Unsupported version for overwintered transaction") :=
  C6_unsupported_version tx5Ex [] (by decide) (by decide)

/-- Claim C7: `Overwintered.write_tx_header` emits exactly the 4-byte LE
`version | 0x80000000` followed by the 4-byte LE `version_group_id`;
`Overwintered.write_sign_tx_footer` emits exactly 4-byte LE `lock_time`,
then for version 3 the 4-byte LE `expiry_height` followed by one
zero-count varint, and for version 4 the 4-byte LE `expiry_height`, an
8-byte zero value-balance, and three zero-count varints. -/
theorem C7_header_footer_layout (tx : SignTx) (w : List Nat)
    (has_segwit : Bool) :
    Overwintered.write_tx_header w tx has_segwit =
      w ++ uint32LE (tx.version ||| 0x80000000) ++
        uint32LE tx.version_group_id ∧
    (tx.version = 3 → Overwintered.write_sign_tx_footer tx w =
      Except.ok (w ++ uint32LE tx.lock_time ++ uint32LE tx.expiry ++ [0])) ∧
    (tx.version = 4 → Overwintered.write_sign_tx_footer tx w =
      Except.ok (w ++ uint32LE tx.lock_time ++ uint32LE tx.expiry ++
        List.replicate 8 0 ++ [0] ++ [0] ++ [0])) := by
  refine ⟨?_, ?_, ?_⟩
  · simp [Overwintered.write_tx_header, write_uint32, OVERWINTERED,
      List.append_assoc]
  · intro hv
    simp [Overwintered.write_sign_tx_footer, hv, write_uint32, write_varint,
      varint_zero, List.append_assoc]
  · intro hv
    simp [Overwintered.write_sign_tx_footer, hv, write_uint32, write_uint64,
      write_varint, varint_zero, uint64LE_zero, List.append_assoc]

/-- Witness for C7: the v4 footer at a concrete header and empty writer. -/
theorem C7_header_footer_layout_witness :
    Overwintered.write_sign_tx_footer tx4Ex [] =
      Except.ok ([] ++ uint32LE tx4Ex.lock_time ++ uint32LE tx4Ex.expiry ++
        List.replicate 8 0 ++ [0] ++ [0] ++ [0]) :=
  (C7_header_footer_layout tx4Ex [] false).2.2 rfl

/-- Claim C1: under the v3 preconditions, `Zip143.preimage_hash` writes to
a fresh preimage accumulator exactly: 4-byte LE `version | 0x80000000`,
4-byte LE `version_group_id`, the 32-byte prevouts-hash, the 32-byte
sequence-hash, the 32-byte outputs-hash, 32 zero bytes (join-splits),
4-byte LE `lock_time`, 4-byte LE `expiry_height`, 4-byte LE
`sighash_type`, then the per-input section: the 32-byte `prev_hash` in
reversed byte order, 4-byte LE `prev_index`, the length-prefixed script
code, 8-byte LE amount, 4-byte LE sequence; the accumulator's
personalization label is ASCII `"ZcashSigHash"` followed by the 4-byte LE
`branch_id`, and the function returns the 32-byte finalization of that
accumulator. -/
theorem C1_zip143_preimage_layout (s : Zip143) (coin : CoinInfo)
    (tx : SignTx) (txi : TxInputType) (pubkeyhash : List Nat) (sighash : Nat)
    (script_code : List Nat)
    (hov : coin.overwintered = true) (hv : tx.version = 3)
    (hsc : derive_script_code txi pubkeyhash = Except.ok script_code) :
    (Zip143.preimage_hash s coin tx txi pubkeyhash sighash).2 =
      Except.ok (blake2b_finalize
        (asciiBytes "ZcashSigHash" ++ uint32LE s.branch_id)
        (uint32LE (tx.version ||| 0x80000000) ++
         uint32LE tx.version_group_id ++
         get_tx_hash s.h_prevouts ++
         get_tx_hash s.h_sequence ++
         get_tx_hash s.h_outputs ++
         List.replicate 32 0 ++
         uint32LE tx.lock_time ++
         uint32LE tx.expiry ++
         uint32LE sighash ++
         txi.prev_hash.reverse ++
         uint32LE txi.prev_index ++
         varint script_code.length ++ script_code ++
         uint64LE txi.amount ++
         uint32LE txi.sequence)) ∧
    (get_tx_hash s.h_prevouts).length = 32 ∧
    (get_tx_hash s.h_sequence).length = 32 ∧
    (get_tx_hash s.h_outputs).length = 32 ∧
    ∀ d, (Zip143.preimage_hash s coin tx txi pubkeyhash sighash).2 =
      Except.ok d → d.length = 32 := by
  have hmain : (Zip143.preimage_hash s coin tx txi pubkeyhash sighash).2 =
      Except.ok (blake2b_finalize
        (asciiBytes "ZcashSigHash" ++ uint32LE s.branch_id)
        (uint32LE (tx.version ||| 0x80000000) ++
         uint32LE tx.version_group_id ++
         get_tx_hash s.h_prevouts ++
         get_tx_hash s.h_sequence ++
         get_tx_hash s.h_outputs ++
         List.replicate 32 0 ++
         uint32LE tx.lock_time ++
         uint32LE tx.expiry ++
         uint32LE sighash ++
         txi.prev_hash.reverse ++
         uint32LE txi.prev_index ++
         varint script_code.length ++ script_code ++
         uint64LE txi.amount ++
         uint32LE txi.sequence)) := by
    simp [Zip143.preimage_hash, ensure, hov, hv, hsc, OVERWINTERED,
      TX_HASH_SIZE, Zip143.get_prevouts_hash, Zip143.get_sequence_hash,
      Zip143.get_outputs_hash, zcashSigHashPersonal, get_tx_hash,
      write_uint32, write_uint64, write_bytes_fixed, write_bytes_reversed,
      write_bytes_prefixed, List.append_assoc]
  refine ⟨hmain, get_tx_hash_length _, get_tx_hash_length _,
    get_tx_hash_length _, ?_⟩
  intro d hd
  rw [hmain] at hd
  injection hd with h
  rw [← h]
  exact blake2b_finalize_length _ _

/-- Witness for C1 at a concrete state, coin, v3 header and
pay-to-address input. -/
theorem C1_zip143_preimage_layout_witness :
    (Zip143.preimage_hash sEx coinEx tx3Ex txiAddrEx pkhEx 1).2 =
      Except.ok (blake2b_finalize
        (asciiBytes "ZcashSigHash" ++ uint32LE sEx.branch_id)
        (uint32LE (tx3Ex.version ||| 0x80000000) ++
         uint32LE tx3Ex.version_group_id ++
         get_tx_hash sEx.h_prevouts ++
         get_tx_hash sEx.h_sequence ++
         get_tx_hash sEx.h_outputs ++
         List.replicate 32 0 ++
         uint32LE tx3Ex.lock_time ++
         uint32LE tx3Ex.expiry ++
         uint32LE 1 ++
         txiAddrEx.prev_hash.reverse ++
         uint32LE txiAddrEx.prev_index ++
         varint (output_script_p2pkh pkhEx).length ++
           output_script_p2pkh pkhEx ++
         uint64LE txiAddrEx.amount ++
         uint32LE txiAddrEx.sequence)) :=
  (C1_zip143_preimage_layout sEx coinEx tx3Ex txiAddrEx pkhEx 1
    (output_script_p2pkh pkhEx) rfl rfl rfl).1

/-- Claim C2: under the v4 preconditions, `Zip243.preimage_hash` writes
the same opening fields as the v3 preimage, then three independent
32-zero-byte placeholders, then 4-byte LE `lock_time`, 4-byte LE
`expiry_height`, an 8-byte LE zero `value_balance`, 4-byte LE
`sighash_type`, then the same per-input section as the v3 strategy, and
returns the 32-byte finalization of a fresh accumulator labeled
`"ZcashSigHash"` plus the 4-byte LE `branch_id`. -/
theorem C2_zip243_preimage_layout (s : Zip243) (coin : CoinInfo)
    (tx : SignTx) (txi : TxInputType) (pubkeyhash : List Nat) (sighash : Nat)
    (script_code : List Nat)
    (hov : coin.overwintered = true) (hv : tx.version = 4)
    (hsc : derive_script_code txi pubkeyhash = Except.ok script_code) :
    (Zip243.preimage_hash s coin tx txi pubkeyhash sighash).2 =
      Except.ok (blake2b_finalize
        (asciiBytes "ZcashSigHash" ++ uint32LE s.branch_id)
        (uint32LE (tx.version ||| 0x80000000) ++
         uint32LE tx.version_group_id ++
         get_tx_hash s.h_prevouts ++
         get_tx_hash s.h_sequence ++
         get_tx_hash s.h_outputs ++
         List.replicate 32 0 ++
         List.replicate 32 0 ++
         List.replicate 32 0 ++
         uint32LE tx.lock_time ++
         uint32LE tx.expiry ++
         List.replicate 8 0 ++
         uint32LE sighash ++
         txi.prev_hash.reverse ++
         uint32LE txi.prev_index ++
         varint script_code.length ++ script_code ++
         uint64LE txi.amount ++
         uint32LE txi.sequence)) ∧
    ∀ d, (Zip243.preimage_hash s coin tx txi pubkeyhash sighash).2 =
      Except.ok d → d.length = 32 := by
  have hmain : (Zip243.preimage_hash s coin tx txi pubkeyhash sighash).2 =
      Except.ok (blake2b_finalize
        (asciiBytes "ZcashSigHash" ++ uint32LE s.branch_id)
        (uint32LE (tx.version ||| 0x80000000) ++
         uint32LE tx.version_group_id ++
         get_tx_hash s.h_prevouts ++
         get_tx_hash s.h_sequence ++
         get_tx_hash s.h_outputs ++
         List.replicate 32 0 ++
         List.replicate 32 0 ++
         List.replicate 32 0 ++
         uint32LE tx.lock_time ++
         uint32LE tx.expiry ++
         List.replicate 8 0 ++
         uint32LE sighash ++
         txi.prev_hash.reverse ++
         uint32LE txi.prev_index ++
         varint script_code.length ++ script_code ++
         uint64LE txi.amount ++
         uint32LE txi.sequence)) := by
    simp [Zip243.preimage_hash, ensure, hov, hv, hsc, OVERWINTERED,
      TX_HASH_SIZE, Zip143.get_prevouts_hash, Zip143.get_sequence_hash,
      Zip143.get_outputs_hash, zcashSigHashPersonal, get_tx_hash,
      write_uint32, write_uint64, write_bytes_fixed, write_bytes_reversed,
      write_bytes_prefixed, uint64LE_zero, List.append_assoc]
  refine ⟨hmain, ?_⟩
  intro d hd
  rw [hmain] at hd
  injection hd with h
  rw [← h]
  exact blake2b_finalize_length _ _

/-- Witness for C2 at a concrete state, coin, v4 header and
pay-to-address input. -/
theorem C2_zip243_preimage_layout_witness :
    (Zip243.preimage_hash sEx coinEx tx4Ex txiAddrEx pkhEx 1).2 =
      Except.ok (blake2b_finalize
        (asciiBytes "ZcashSigHash" ++ uint32LE sEx.branch_id)
        (uint32LE (tx4Ex.version ||| 0x80000000) ++
         uint32LE tx4Ex.version_group_id ++
         get_tx_hash sEx.h_prevouts ++
         get_tx_hash sEx.h_sequence ++
         get_tx_hash sEx.h_outputs ++
         List.replicate 32 0 ++
         List.replicate 32 0 ++
         List.replicate 32 0 ++
         uint32LE tx4Ex.lock_time ++
         uint32LE tx4Ex.expiry ++
         List.replicate 8 0 ++
         uint32LE 1 ++
         txiAddrEx.prev_hash.reverse ++
         uint32LE txiAddrEx.prev_index ++
         varint (output_script_p2pkh pkhEx).length ++
           output_script_p2pkh pkhEx ++
         uint64LE txiAddrEx.amount ++
         uint32LE txiAddrEx.sequence)) :=
  (C2_zip243_preimage_layout sEx coinEx tx4Ex txiAddrEx pkhEx 1
    (output_script_p2pkh pkhEx) rfl rfl rfl).1

/-- Claim C3: `Zip143.preimage_hash` always fails with a fatal assertion
when `coin.overwintered` is false or `tx.version ≠ 3`; likewise
`Zip243.preimage_hash` when `coin.overwintered` is false or
`tx.version ≠ 4`; under the matching preconditions the assertion branch is
unreachable. -/
theorem C3_version_gating (s : Zip143) (coin : CoinInfo) (tx : SignTx)
    (txi : TxInputType) (pubkeyhash : List Nat) (sighash : Nat) :
    (¬(coin.overwintered = true ∧ tx.version = 3) →
      (Zip143.preimage_hash s coin tx txi pubkeyhash sighash).2 =
        Except.error SignErr.ensureFailed) ∧
    (¬(coin.overwintered = true ∧ tx.version = 4) →
      (Zip243.preimage_hash s coin tx txi pubkeyhash sighash).2 =
        Except.error SignErr.ensureFailed) ∧
    (coin.overwintered = true → tx.version = 3 →
      (Zip143.preimage_hash s coin tx txi pubkeyhash sighash).2 ≠
        Except.error SignErr.ensureFailed) ∧
    (coin.overwintered = true → tx.version = 4 →
      (Zip243.preimage_hash s coin tx txi pubkeyhash sighash).2 ≠
        Except.error SignErr.ensureFailed) := by
  refine ⟨?_, ?_, ?_, ?_⟩
  · intro h
    cases hov : coin.overwintered
    · simp [Zip143.preimage_hash, ensure, hov]
    · have hv : tx.version ≠ 3 := fun hv => h ⟨hov, hv⟩
      simp [Zip143.preimage_hash, ensure, hov, hv]
  · intro h
    cases hov : coin.overwintered
    · simp [Zip243.preimage_hash, ensure, hov]
    · have hv : tx.version ≠ 4 := fun hv => h ⟨hov, hv⟩
      simp [Zip243.preimage_hash, ensure, hov, hv]
  · intro hov hv
    rcases derive_script_code_cases txi pubkeyhash with ⟨sc, hsc⟩ | herr
    · simp [Zip143.preimage_hash, ensure, hov, hv, hsc]
    · simp [Zip143.preimage_hash, ensure, hov, hv, herr]
  · intro hov hv
    rcases derive_script_code_cases txi pubkeyhash with ⟨sc, hsc⟩ | herr
    · simp [Zip243.preimage_hash, ensure, hov, hv, hsc]
    · simp [Zip243.preimage_hash, ensure, hov, hv, herr]

/-- Witness for C3: the v3 strategy fails the fatal assertion on a v4
header. -/
theorem C3_version_gating_witness :
    (Zip143.preimage_hash sEx coinEx tx4Ex txiAddrEx pkhEx 1).2 =
      Except.error SignErr.ensureFailed :=
  (C3_version_gating sEx coinEx tx4Ex txiAddrEx pkhEx 1).1 (by decide)

/-- Every digest returned by `Zip143.preimage_hash` has 32 bytes. -/
theorem zip143_preimage_ok_length (s : Zip143) (coin : CoinInfo)
    (tx : SignTx) (txi : TxInputType) (pubkeyhash : List Nat) (sighash : Nat)
    (d : List Nat)
    (h : (Zip143.preimage_hash s coin tx txi pubkeyhash sighash).2 =
      Except.ok d) : d.length = 32 := by
  cases hov : coin.overwintered
  · simp [Zip143.preimage_hash, ensure, hov] at h
  · by_cases hv : tx.version = 3
    · rcases derive_script_code_cases txi pubkeyhash with ⟨sc, hsc⟩ | herr
      · simp [Zip143.preimage_hash, ensure, hov, hv, hsc, get_tx_hash] at h
        rw [← h]
        exact blake2b_finalize_length _ _
      · simp [Zip143.preimage_hash, ensure, hov, hv, herr] at h
    · simp [Zip143.preimage_hash, ensure, hov, hv] at h

/-- Every digest returned by `Zip243.preimage_hash` has 32 bytes. -/
theorem zip243_preimage_ok_length (s : Zip243) (coin : CoinInfo)
    (tx : SignTx) (txi : TxInputType) (pubkeyhash : List Nat) (sighash : Nat)
    (d : List Nat)
    (h : (Zip243.preimage_hash s coin tx txi pubkeyhash sighash).2 =
      Except.ok d) : d.length = 32 := by
  cases hov : coin.overwintered
  · simp [Zip243.preimage_hash, ensure, hov] at h
  · by_cases hv : tx.version = 4
    · rcases derive_script_code_cases txi pubkeyhash with ⟨sc, hsc⟩ | herr
      · simp [Zip243.preimage_hash, ensure, hov, hv, hsc, get_tx_hash] at h
        rw [← h]
        exact blake2b_finalize_length _ _
      · simp [Zip243.preimage_hash, ensure, hov, hv, herr] at h
    · simp [Zip243.preimage_hash, ensure, hov, hv] at h

/-- Claim C8: for fixed coin, transaction header, input, public-key hash
and sighash flag, the preimage digest is a pure function of its inputs:
two strategy states agreeing on `branch_id` and the three commitment
accumulators produce identical results, and every returned digest has
exactly 32 bytes. -/
theorem C8_preimage_determinism (s1 s2 : Zip143) (coin : CoinInfo)
    (tx : SignTx) (txi : TxInputType) (pubkeyhash : List Nat) (sighash : Nat)
    (hb : s1.branch_id = s2.branch_id)
    (hp : s1.h_prevouts = s2.h_prevouts)
    (hq : s1.h_sequence = s2.h_sequence)
    (ho : s1.h_outputs = s2.h_outputs) :
    (Zip143.preimage_hash s1 coin tx txi pubkeyhash sighash).2 =
      (Zip143.preimage_hash s2 coin tx txi pubkeyhash sighash).2 ∧
    (Zip243.preimage_hash s1 coin tx txi pubkeyhash sighash).2 =
      (Zip243.preimage_hash s2 coin tx txi pubkeyhash sighash).2 ∧
    (∀ d, (Zip143.preimage_hash s1 coin tx txi pubkeyhash sighash).2 =
      Except.ok d → d.length = 32) ∧
    (∀ d, (Zip243.preimage_hash s1 coin tx txi pubkeyhash sighash).2 =
      Except.ok d → d.length = 32) := by
  have hs : s1 = s2 := by
    cases s1
    cases s2
    simp_all
  subst hs
  exact ⟨rfl, rfl,
    fun d hd => zip143_preimage_ok_length _ _ _ _ _ _ _ hd,
    fun d hd => zip243_preimage_ok_length _ _ _ _ _ _ _ hd⟩

/-- Witness for C8: two separately constructed but field-equal strategy
states yield the same digest. -/
theorem C8_preimage_determinism_witness :
    (Zip143.preimage_hash sEx coinEx tx3Ex txiAddrEx pkhEx 1).2 =
      (Zip143.preimage_hash sEx2 coinEx tx3Ex txiAddrEx pkhEx 1).2 :=
  (C8_preimage_determinism sEx sEx2 coinEx tx3Ex txiAddrEx pkhEx 1
    rfl rfl rfl rfl).1

/-- Claim C9: when `preimage_hash` fails with the unsupported-script-type
data error (no multisig descriptor and a non-pay-to-address script type),
it returns no digest bytes and the failure is atomic: the strategy's
`branch_id` and its three commitment accumulators are exactly as before
the call. -/
theorem C9_atomic_failure (s : Zip143) (coin : CoinInfo) (tx : SignTx)
    (txi : TxInputType) (pubkeyhash : List Nat) (sighash : Nat)
    (hms : txi.multisig = none)
    (hst : txi.script_type ≠ InputScriptType.SPENDADDRESS) :
    ((Zip143.preimage_hash s coin tx txi pubkeyhash sighash).1.branch_id =
        s.branch_id ∧
     (Zip143.preimage_hash s coin tx txi pubkeyhash sighash).1.h_prevouts =
        s.h_prevouts ∧
     (Zip143.preimage_hash s coin tx txi pubkeyhash sighash).1.h_sequence =
        s.h_sequence ∧
     (Zip143.preimage_hash s coin tx txi pubkeyhash sighash).1.h_outputs =
        s.h_outputs) ∧
    ((Zip243.preimage_hash s coin tx txi pubkeyhash sighash).1.branch_id =
        s.branch_id ∧
     (Zip243.preimage_hash s coin tx txi pubkeyhash sighash).1.h_prevouts =
        s.h_prevouts ∧
     (Zip243.preimage_hash s coin tx txi pubkeyhash sighash).1.h_sequence =
        s.h_sequence ∧
     (Zip243.preimage_hash s coin tx txi pubkeyhash sighash).1.h_outputs =
        s.h_outputs) ∧
    (coin.overwintered = true → tx.version = 3 →
      (Zip143.preimage_hash s coin tx txi pubkeyhash sighash).2 =
        Except.error (SignErr.signingError FailureType.DataError
          "Unknown input script type for zip143 script code")) ∧
    (coin.overwintered = true → tx.version = 4 →
      (Zip243.preimage_hash s coin tx txi pubkeyhash sighash).2 =
        Except.error (SignErr.signingError FailureType.DataError
          "Unknown input script type for zip143 script code")) := by
  refine ⟨⟨rfl, rfl, rfl, rfl⟩, ⟨rfl, rfl, rfl, rfl⟩, ?_, ?_⟩
  · intro hov hv
    simp [Zip143.preimage_hash, ensure, hov, hv, derive_script_code,
      hms, hst]
  · intro hov hv
    simp [Zip243.preimage_hash, ensure, hov, hv, derive_script_code,
      hms, hst]

/-- Witness for C9 at a concrete witness-script input with no multisig
descriptor. -/
theorem C9_atomic_failure_witness :
    (Zip143.preimage_hash sEx coinEx tx3Ex txiBadEx pkhEx 1).2 =
      Except.error (SignErr.signingError FailureType.DataError
        "Unknown input script type for zip143 script code") :=
  (C9_atomic_failure sEx coinEx tx3Ex txiBadEx pkhEx 1 rfl
    (by decide)).2.2.1 rfl rfl

/-- Claim C10: a successful call to `preimage_hash` leaves the strategy's
`branch_id` and the contents of its three commitment accumulators
unchanged, so computing the preimage digest for one input and then for a
second input yields the same digest for the second input as computing it
for the second input alone. -/
theorem C10_frame_preservation (s : Zip143) (coin : CoinInfo)
    (tx3 tx4 : SignTx) (txiA txiB : TxInputType) (pkhA pkhB : List Nat)
    (shA shB : Nat) (dA dA4 : List Nat)
    (hokA : (Zip143.preimage_hash s coin tx3 txiA pkhA shA).2 =
      Except.ok dA)
    (hokA4 : (Zip243.preimage_hash s coin tx4 txiA pkhA shA).2 =
      Except.ok dA4) :
    ((Zip143.preimage_hash s coin tx3 txiA pkhA shA).1.branch_id =
        s.branch_id ∧
     (Zip143.preimage_hash s coin tx3 txiA pkhA shA).1.h_prevouts =
        s.h_prevouts ∧
     (Zip143.preimage_hash s coin tx3 txiA pkhA shA).1.h_sequence =
        s.h_sequence ∧
     (Zip143.preimage_hash s coin tx3 txiA pkhA shA).1.h_outputs =
        s.h_outputs) ∧
    ((Zip243.preimage_hash s coin tx4 txiA pkhA shA).1.branch_id =
        s.branch_id ∧
     (Zip243.preimage_hash s coin tx4 txiA pkhA shA).1.h_prevouts =
        s.h_prevouts ∧
     (Zip243.preimage_hash s coin tx4 txiA pkhA shA).1.h_sequence =
        s.h_sequence ∧
     (Zip243.preimage_hash s coin tx4 txiA pkhA shA).1.h_outputs =
        s.h_outputs) ∧
    (Zip143.preimage_hash (Zip143.preimage_hash s coin tx3 txiA pkhA shA).1
        coin tx3 txiB pkhB shB).2 =
      (Zip143.preimage_hash s coin tx3 txiB pkhB shB).2 ∧
    (Zip243.preimage_hash (Zip243.preimage_hash s coin tx4 txiA pkhA shA).1
        coin tx4 txiB pkhB shB).2 =
      (Zip243.preimage_hash s coin tx4 txiB pkhB shB).2 :=
  ⟨⟨rfl, rfl, rfl, rfl⟩, ⟨rfl, rfl, rfl, rfl⟩, rfl, rfl⟩

/-- Witness for C10: hashing a pay-to-address input first does not change
the digest subsequently computed for a multisig input. -/
theorem C10_frame_preservation_witness :
    (Zip143.preimage_hash (Zip143.preimage_hash sEx coinEx tx3Ex txiAddrEx
        pkhEx 1).1 coinEx tx3Ex txiMsEx pkhEx 1).2 =
      (Zip143.preimage_hash sEx coinEx tx3Ex txiMsEx pkhEx 1).2 :=
  (C10_frame_preservation sEx coinEx tx3Ex tx4Ex txiAddrEx txiMsEx pkhEx
    pkhEx 1 1 _ _ rfl rfl).2.2.1

end Zcash
